import Mathlib

/-!
Verification of the patch protocol and connection-resilience layer of the
server-driven UI frontend.  The first part embeds the UI document, the patch
validator and the patch engine; the second part embeds the background worker
connection manager from `src/app/public/agent-worker.js` and the hook variant
from `src/app/hooks/useSafeAgentStream.ts`.
-/

namespace AgentUI

/-- Component kinds registered in `src/app/components/componentRegistry.tsx`
(lines 356–363): `componentRegistry = { Table, Chart, Map }`. -/
inductive ComponentKind where
  | Table
  | Chart
  | Map
deriving DecidableEq, Repr

/-- Modelled from the spec: the kind-specific `data` payload of an incoming
component (`lib/schemas.ts` is absent from the sources; §3 of the spec and the
README describe a table payload of columns/rows, a chart payload of points and
a map payload of GeoJSON features; `malformed` stands for a payload that fits
none of the kind schemas). -/
inductive RawData where
  | table (columns : List String) (rows : List (List String))
  | chart (points : List (Int × Int))
  | mapFeatures (features : List String)
  | malformed
deriving DecidableEq, Repr

/-- Modelled from the spec: a raw component arriving on the wire, before
validation.  `id` is `Option` because a missing required field must be
rejectable; `type` is a raw string tag checked against the registry. -/
structure RawComponent where
  id : Option String
  type : String
  data : RawData
deriving DecidableEq, Repr

/-- Modelled from the spec: a raw patch
`{ op, path, value, index? }` (§3 of the spec, README "Patch Protocol"). -/
structure RawPatch where
  op : String
  path : String
  value : RawComponent
  index : Option Int
deriving DecidableEq, Repr

/-- Error kinds of the validator and engine (§4.1/§4.3 of the spec). -/
inductive ErrorKind where
  | UnknownOperation
  | InvalidPath
  | UnknownComponentType
  | SchemaViolation
  | PayloadTooLarge
  | IndexOutOfRange
  | DocumentFull
deriving DecidableEq, Repr

/-- A per-patch error record `{ patchIndex, error }` (§3 of the spec). -/
structure PatchError where
  patchIndex : Nat
  kind : ErrorKind
deriving DecidableEq, Repr

/-- Table row ceiling, from the README in `src/unnamed/part_000`
("Payload Limits: 200 table rows"). -/
def MAX_TABLE_ROWS : Nat := 200

/-- Chart point ceiling, from the README ("1000 chart points"). -/
def MAX_CHART_POINTS : Nat := 1000

/-- Map feature ceiling, from the README ("5000 map points"). -/
def MAX_MAP_FEATURES : Nat := 5000

/-- Lookup in the component registry of
`src/app/components/componentRegistry.tsx`: the closed whitelist
`{ Table, Chart, Map }`; any other tag has no entry. -/
def componentRegistry (t : String) : Option ComponentKind :=
  if t = "Table" then some ComponentKind.Table
  else if t = "Chart" then some ComponentKind.Chart
  else if t = "Map" then some ComponentKind.Map
  else none

/-- From `src/app/components/RenderSpec.tsx` (lines 16–23): `renderComponent`
looks the component's `type` up in `componentRegistry`; an unknown type
returns `null` (renders nothing), a registered one renders the component. -/
def renderComponent (c : RawComponent) : Option (ComponentKind × RawComponent) :=
  match componentRegistry c.type with
  | none => none
  | some k => some (k, c)

/-- Modelled from the spec: rule 3 and rule 4 of §4.1 — the component value
check of the validator (`lib/schemas.ts` is absent from the sources).  The
`type` must be in the registry (else `UnknownComponentType`); required fields
must be present and the payload must match the declared kind (else
`SchemaViolation`); the kind-specific payload ceiling must hold (else
`PayloadTooLarge`). -/
def validateValue (c : RawComponent) : Option ErrorKind :=
  match componentRegistry c.type with
  | none => some ErrorKind.UnknownComponentType
  | some k =>
    if c.id = none then some ErrorKind.SchemaViolation
    else
      match k, c.data with
      | ComponentKind.Table, RawData.table _ rows =>
          if rows.length > MAX_TABLE_ROWS then some ErrorKind.PayloadTooLarge else none
      | ComponentKind.Chart, RawData.chart points =>
          if points.length > MAX_CHART_POINTS then some ErrorKind.PayloadTooLarge else none
      | ComponentKind.Map, RawData.mapFeatures features =>
          if features.length > MAX_MAP_FEATURES then some ErrorKind.PayloadTooLarge else none
      | _, _ => some ErrorKind.SchemaViolation

/-- Modelled from the spec: §4.1 — the patch validator, a pure function of the
current document's child count and the raw patch, applying rules 1–5 in
order: legal `op`, legal `path`, whitelisted `value.type`, kind schema and
payload ceiling, and for `set` an in-range non-negative `index`. -/
def validatePatch (docLen : Nat) (p : RawPatch) : Option ErrorKind :=
  if ¬ (p.op = "append" ∨ p.op = "set") then some ErrorKind.UnknownOperation
  else if ¬ (p.path = "/children") then some ErrorKind.InvalidPath
  else
    match validateValue p.value with
    | some e => some e
    | none =>
      if p.op = "set" then
        match p.index with
        | some i => if 0 ≤ i ∧ i < (docLen : Int) then none else some ErrorKind.IndexOutOfRange
        | none => some ErrorKind.IndexOutOfRange
      else none

/-- Modelled from the spec: §4.3 — applying one patch to the children list.
On a validation reject the list is unchanged and the error is reported;
`append` pushes to the end unless that would exceed the ceiling
(`DocumentFull`); `set` replaces the element at the validated index. -/
def applyPatch (maxChildren : Nat) (children : List RawComponent) (p : RawPatch) :
    List RawComponent × Option ErrorKind :=
  match validatePatch children.length p with
  | some e => (children, some e)
  | none =>
    if p.op = "append" then
      if children.length + 1 > maxChildren then (children, some ErrorKind.DocumentFull)
      else (children ++ [p.value], none)
    else
      (children.set (p.index.getD 0).toNat p.value, none)

/-- Modelled from the spec: §4.3 — the engine iterates the batch in order,
applying each patch to the working children list; a rejected patch records a
`PatchError` carrying its index in the batch and the loop continues. -/
def applyPatches (maxChildren : Nat) :
    List RawComponent → List RawPatch → List RawComponent × List PatchError
  | children, [] => (children, [])
  | children, p :: rest =>
    let first := applyPatch maxChildren children p
    let restResult := applyPatches maxChildren first.1 rest
    (restResult.1,
      (match first.2 with
       | some k => [PatchError.mk 0 k]
       | none => []) ++
        restResult.2.map (fun e => PatchError.mk (e.patchIndex + 1) e.kind))

/-- The UI document `{ children, requestId, updatedAt }` (§3 of the spec,
mirrored by `UISpec` in the hook sources). -/
structure UIDocument where
  children : List RawComponent
  requestId : Option String
  updatedAt : Nat
deriving DecidableEq, Repr

/-- Modelled from the spec: §4.3 — `validateAndApplyPatches` (the function the
hooks import from the absent `lib/patch.ts`): applies the batch and returns a
new document (new children, carried request id, fresh timestamp) together
with the accumulated error list. -/
def validateAndApplyPatches (maxChildren : Nat) (doc : UIDocument)
    (patches : List RawPatch) (requestId : String) (now : Nat) :
    UIDocument × List PatchError :=
  let r := applyPatches maxChildren doc.children patches
  (UIDocument.mk r.1 (some requestId) now, r.2)

end AgentUI

namespace Worker

/-- Ready state of an `EventSource` transport (the worker compares
`eventSource.readyState` against `EventSource.OPEN`). -/
inductive ReadyState where
  | connecting
  | opened
  | closed
deriving DecidableEq, Repr

/-- Configuration received with the `CONNECT` message
(`src/app/public/agent-worker.js`, `config`).  Each field is optional: the
worker falls back on a default with `||` at each use site. -/
structure Config where
  reconnectInterval : Option Nat
  maxReconnectAttempts : Option Nat
  heartbeatInterval : Option Nat
deriving DecidableEq, Repr

/-- The worker's module-level mutable state
(`src/app/public/agent-worker.js`, lines 4–10): the transport handle, the two
timers, the attempt counter, the connected flag and the endpoint.
`reconnectTimer = some d` means a reconnect is scheduled to run after
`d` milliseconds; the heartbeat timer is a repeating interval, kept as a
flag. -/
structure State where
  connectionAttempts : Nat
  isConnected : Bool
  eventSource : Option ReadyState
  heartbeatTimer : Bool
  reconnectTimer : Option Nat
  endpointSet : Bool
deriving DecidableEq, Repr

/-- Messages the worker posts to the main thread (`sendToMain`); the
`connectionStatus` payload carries `isConnected`, optionally `isLoading`,
`connectionAttempts` and whether an `error` field was attached. -/
inductive MainMsg where
  | connectionStatus (isConnected : Bool) (isLoading : Option Bool)
      (connectionAttempts : Nat) (hasError : Bool)
  | agentResponse (rawMessage : String)
  | errorMsg (message : String)
  | logMsg (message : String)
deriving DecidableEq, Repr

/-- Whether a posted message is a `CONNECTION_STATUS` message. -/
def MainMsg.isStatus : MainMsg → Bool
  | MainMsg.connectionStatus _ _ _ _ => true
  | _ => false

/-- Whether a posted message is an `AGENT_RESPONSE` message. -/
def MainMsg.isAgentResponse : MainMsg → Bool
  | MainMsg.agentResponse _ => true
  | _ => false

/-- Whether a posted message is a `LOG` message. -/
def MainMsg.isLog : MainMsg → Bool
  | MainMsg.logMsg _ => true
  | _ => false

/-- Whether a posted message is an `ERROR` message. -/
def MainMsg.isError : MainMsg → Bool
  | MainMsg.errorMsg _ => true
  | _ => false

/-- From `agent-worker.js` `cleanup()` (lines 55–73): clear both timers,
close and drop the transport, mark not connected. -/
def cleanup (s : State) : State :=
  { s with heartbeatTimer := false, reconnectTimer := none,
           eventSource := none, isConnected := false }

/-- From `agent-worker.js` `handleConnectionError()` (lines 87–114): mark not
connected and report it; if `connectionAttempts` is still below
`maxReconnectAttempts` (default 5), schedule a reconnect after
`min(reconnectInterval * 2^connectionAttempts, 30000)` ms (base default
3000); otherwise post a terminal `ERROR` and schedule nothing. -/
def handleConnectionError (cfg : Config) (s : State) : State × List MainMsg :=
  let s1 := { s with isConnected := false }
  let statusMsg := MainMsg.connectionStatus false none s1.connectionAttempts true
  if s1.connectionAttempts < cfg.maxReconnectAttempts.getD 5 then
    let delay := min ((cfg.reconnectInterval.getD 3000) * 2 ^ s1.connectionAttempts) 30000
    ({ s1 with reconnectTimer := some delay },
      [statusMsg, MainMsg.logMsg "Scheduling reconnection"])
  else
    (s1, [statusMsg, MainMsg.logMsg "Max reconnection attempts reached",
          MainMsg.errorMsg "Failed to connect after maximum attempts"])

/-- From `agent-worker.js` `connect()` (lines 116–193): bail out if no
endpoint is configured; otherwise clean up the previous connection, increment
the attempt counter, report a loading status and create a fresh transport
(modelled as succeeding, leaving the transport in the `connecting` ready
state until an open or error event arrives). -/
def connect (s : State) : State × List MainMsg :=
  if ¬ s.endpointSet then (s, [MainMsg.logMsg "No endpoint configured"])
  else
    let s1 := cleanup s
    let s2 := { s1 with connectionAttempts := s1.connectionAttempts + 1,
                        eventSource := some ReadyState.connecting }
    (s2, [MainMsg.logMsg "Connecting",
          MainMsg.connectionStatus false (some true) s2.connectionAttempts false])

/-- From `agent-worker.js` `eventSource.onopen` (lines 138–151): mark
connected, reset the attempt counter to 0, report the connected status and
start the heartbeat interval. -/
def onOpen (s : State) : State × List MainMsg :=
  let s1 := { s with isConnected := true, connectionAttempts := 0,
                     eventSource := some ReadyState.opened,
                     heartbeatTimer := true }
  (s1, [MainMsg.logMsg "SSE connection opened",
        MainMsg.connectionStatus true (some false) 0 false])

/-- From `agent-worker.js` `eventSource.onerror` (lines 179–182): a transport
error event runs `handleConnectionError`. -/
def onTransportError (cfg : Config) (s : State) : State × List MainMsg :=
  handleConnectionError cfg s

/-- From `agent-worker.js` `startHeartbeat` (lines 75–85): when the heartbeat
interval fires, if a transport exists and its ready state is not `OPEN`, log
the missed check and run `handleConnectionError`; otherwise do nothing. -/
def heartbeatTick (cfg : Config) (s : State) : State × List MainMsg :=
  if s.heartbeatTimer then
    match s.eventSource with
    | some rs =>
      if rs ≠ ReadyState.opened then
        let r := handleConnectionError cfg s
        (r.1, MainMsg.logMsg "Heartbeat failed - connection lost" :: r.2)
      else (s, [])
    | none => (s, [])
  else (s, [])

/-- Firing of a scheduled reconnect timer: runs `connect()`
(`agent-worker.js` line 105–107). -/
def fireReconnectTimer (s : State) : State × List MainMsg :=
  match s.reconnectTimer with
  | some _ => connect { s with reconnectTimer := none }
  | none => (s, [])

/-- The parsed shape of an agent frame: optional patch list and optional
status message (the worker only forwards it, tagged with the raw text). -/
structure AgentData where
  patches : Option (List AgentUI.RawPatch)
  message : Option String
  requestId : Option String
deriving DecidableEq, Repr

/-- From `agent-worker.js` `eventSource.onmessage` (lines 153–177): an empty
or whitespace-only frame is logged and dropped; a frame `JSON.parse` rejects
is logged and reported through the generic `ERROR` channel; a parsed frame is
forwarded to the main thread as `AGENT_RESPONSE`.  `parse` stands for the
platform's `JSON.parse` (`none` models a parse exception). -/
def onMessage (parse : String → Option AgentData) (s : State) (raw : String) :
    State × List MainMsg :=
  if raw.trim = "" then
    (s, [MainMsg.logMsg "Received empty event data"])
  else
    match parse raw with
    | some _ =>
      (s, [MainMsg.logMsg "Received message",
           MainMsg.logMsg "Message has patches",
           MainMsg.agentResponse raw])
    | none =>
      (s, [MainMsg.logMsg "Error parsing message",
           MainMsg.logMsg "Raw message data",
           MainMsg.errorMsg "Failed to parse agent message"])

/-- Outcome of the `fetch` issued by `sendQuery`: a 2xx response, a non-2xx
response (the `!response.ok` branch throws `HTTP status`), or a network
failure rejecting the promise. -/
inductive FetchOutcome where
  | ok
  | httpError (status : Nat)
  | networkFailure
deriving DecidableEq, Repr

/-- From `agent-worker.js` `sendQuery` (lines 196–235): when not connected,
log and post `ERROR` without any network call; otherwise issue the POST
(the third component records that a network call was made) and on any
failure — non-2xx or rejected fetch — log and post `ERROR`.  The connection
state is never modified. -/
def sendQuery (fetchOutcome : FetchOutcome) (s : State) : State × List MainMsg × Bool :=
  if ¬ s.isConnected then
    (s, [MainMsg.logMsg "Cannot send query - not connected",
         MainMsg.errorMsg "Not connected to agent"], false)
  else
    match fetchOutcome with
    | FetchOutcome.ok =>
      (s, [MainMsg.logMsg "Sending query",
           MainMsg.logMsg "Query sent successfully"], true)
    | FetchOutcome.httpError _ =>
      (s, [MainMsg.logMsg "Sending query",
           MainMsg.errorMsg "Failed to send query"], true)
    | FetchOutcome.networkFailure =>
      (s, [MainMsg.logMsg "Sending query",
           MainMsg.errorMsg "Failed to send query"], true)

/-- From `agent-worker.js` `self.onmessage`, `CONNECT` case (lines 243–249):
store the endpoint and config, reset `connectionAttempts` to 0 and run
`connect()`. -/
def connectRequest (endpointPresent : Bool) (s : State) : State × List MainMsg :=
  connect { s with endpointSet := endpointPresent, connectionAttempts := 0 }

/-- From `agent-worker.js` `self.onmessage`, `DISCONNECT` case
(lines 251–259): clean up and report a reset status. -/
def disconnectRequest (s : State) : State × List MainMsg :=
  (cleanup s, [MainMsg.connectionStatus false (some false) 0 false])

/-- The worker's initial module state (`agent-worker.js` lines 4–10): no
transport, no timers, zero attempts, no endpoint yet. -/
def initialState : State :=
  State.mk 0 false none false none false

/-- A `Config` message carrying no recognized options, so that every
`config.x || default` falls back on its default. -/
def defaultConfig : Config :=
  Config.mk none none none

end Worker

namespace Hook

/-- The connection-relevant state of the `useSafeAgentStream` hook
(`src/app/hooks/useSafeAgentStream.ts`): the React state flags, the
`EventSource` ref and the three timer refs. -/
structure State where
  isConnected : Bool
  isLoading : Bool
  connectionAttempts : Nat
  eventSource : Option Worker.ReadyState
  heartbeatTimer : Bool
  reconnectTimer : Option Nat
  timeoutTimer : Bool
deriving DecidableEq, Repr

/-- From `useSafeAgentStream.ts` `disconnect` (lines 72–87): clear all three
timers, close and drop the `EventSource`, and mark not connected and not
loading.  No reconnection is scheduled. -/
def disconnect (s : State) : State :=
  { s with heartbeatTimer := false, reconnectTimer := none, timeoutTimer := false,
           eventSource := none, isConnected := false, isLoading := false }

/-- From `useSafeAgentStream.ts` `startHeartbeat` (lines 89–100): when the
heartbeat interval fires, if the `EventSource` ready state is not `OPEN`
(including a missing `EventSource`), call `disconnect()`; otherwise do
nothing. -/
def heartbeatTick (s : State) : State :=
  if s.heartbeatTimer then
    if s.eventSource ≠ some Worker.ReadyState.opened then disconnect s else s
  else s

end Hook

namespace Worker

/-- The repeated-failure scenario driven on the worker model: an error event
arrives; while `handleConnectionError` schedules a reconnect, the timer
fires (running `connect`) and the next attempt errors again.  Returns the
delays of the reconnect timers scheduled, in order. -/
def reconnectDelays (cfg : Config) : Nat → State → List Nat
  | 0, _ => []
  | k + 1, s =>
    let afterError := (handleConnectionError cfg s).1
    match afterError.reconnectTimer with
    | some d =>
        d :: reconnectDelays cfg k (connect { afterError with reconnectTimer := none }).1
    | none => []

/-- The worker state after a `CONNECT` request whose transport opened:
connected, heartbeat running, attempt counter reset to 0. -/
def postOpenState : State :=
  (onOpen (connectRequest true initialState).1).1

/-- The worker state after `n` consecutive connection failures starting from
`s`: each error runs `handleConnectionError`, and while a reconnect was
scheduled the timer fires (`connect`) and the new attempt fails again; once
nothing is scheduled the state is final. -/
def failuresFrom (cfg : Config) : Nat → State → State
  | 0, s => s
  | n + 1, s =>
    let afterError := (handleConnectionError cfg s).1
    match afterError.reconnectTimer with
    | some _ => failuresFrom cfg n (connect { afterError with reconnectTimer := none }).1
    | none => afterError

end Worker

namespace Hook

/-- A hook state that is connected, with a running heartbeat, whose
transport has silently left the OPEN ready state. -/
def degradedState : State :=
  State.mk true false 0 (some Worker.ReadyState.connecting) true none false

end Hook

namespace AgentUI

/-- A well-formed table component used as a concrete test value. -/
def sampleTable : RawComponent :=
  RawComponent.mk (some "t1") "Table" (RawData.table ["c"] [["v"]])

/-- A well-formed chart component used as a concrete test value. -/
def sampleChart : RawComponent :=
  RawComponent.mk (some "ch1") "Chart" (RawData.chart [(1, 2)])

/-- An append patch carrying a given component. -/
def appendPatch (c : RawComponent) : RawPatch :=
  RawPatch.mk "append" "/children" c none

/-- A set patch carrying a given component and index. -/
def setPatch (i : Int) (c : RawComponent) : RawPatch :=
  RawPatch.mk "set" "/children" c (some i)

/-- A patch whose component carries a type outside the registry but
perfectly well-formed table data. -/
def badTypePatch : RawPatch :=
  RawPatch.mk "append" "/children"
    (RawComponent.mk (some "s1") "Script" (RawData.table ["c"] [["v"]])) none

/-- Whether position `j` of a batch holds an `append` patch that the engine
accepted: the patch at `j` is an `append` and no recorded error carries batch
index `j`. -/
def isAcceptedAppendAt (ps : List RawPatch) (errs : List PatchError) (j : Nat) : Bool :=
  (ps[j]?.elim false (fun p => decide (p.op = "append")))
    && errs.all (fun e => decide (e.patchIndex ≠ j))

/-- The number of accepted `append` patches of a batch, read off the batch
and the engine's error report. -/
def countAcceptedAppends (ps : List RawPatch) (errs : List PatchError) : Nat :=
  (List.range ps.length).countP (fun j => isAcceptedAppendAt ps errs j)

end AgentUI

namespace AgentUI

theorem applyPatch_rejected_eq {maxC : Nat} {c : List RawComponent} {p : RawPatch}
    {k : ErrorKind} (h : (applyPatch maxC c p).2 = some k) :
    (applyPatch maxC c p).1 = c := by
  unfold applyPatch at h ⊢
  cases hv : validatePatch c.length p with
  | some e => simp [hv]
  | none =>
    simp only [hv] at h ⊢
    by_cases hop : p.op = "append"
    · simp only [hop, if_true] at h ⊢
      by_cases hfull : c.length + 1 > maxC
      · simp [hfull]
      · simp [hfull] at h
    · simp [hop] at h

theorem applyPatches_cons_no_error {maxC : Nat} {c : List RawComponent} {p : RawPatch}
    {ps : List RawPatch} (h : (applyPatches maxC c (p :: ps)).2 = []) :
    (applyPatch maxC c p).2 = none ∧
      (applyPatches maxC (applyPatch maxC c p).1 ps).2 = [] := by
  simp only [applyPatches] at h
  rcases List.append_eq_nil.mp h with ⟨h1, h2⟩
  refine ⟨?_, ?_⟩
  · cases he : (applyPatch maxC c p).2 with
    | none => rfl
    | some k => rw [he] at h1; exact absurd h1 (by simp)
  · exact List.map_eq_nil_iff.mp h2

theorem validateValue_of_validatePatch {n : Nat} {p : RawPatch}
    (h : validatePatch n p = none) : validateValue p.value = none := by
  unfold validatePatch at h
  split at h
  · exact absurd h (by simp)
  · split at h
    · exact absurd h (by simp)
    · cases hv : validateValue p.value with
      | none => rfl
      | some e => rw [hv] at h; simp at h

theorem registry_isSome_of_validateValue {v : RawComponent}
    (h : validateValue v = none) : (componentRegistry v.type).isSome := by
  unfold validateValue at h
  cases hr : componentRegistry v.type with
  | none => rw [hr] at h; simp at h
  | some k => simp

theorem applyPatch_mem {maxC : Nat} {c : List RawComponent} {p : RawPatch}
    {x : RawComponent} (hx : x ∈ (applyPatch maxC c p).1) :
    x ∈ c ∨ (validatePatch c.length p = none ∧ x = p.value) := by
  unfold applyPatch at hx
  cases hv : validatePatch c.length p with
  | some e => rw [hv] at hx; exact Or.inl hx
  | none =>
    rw [hv] at hx
    by_cases hop : p.op = "append"
    · simp only [hop, if_true] at hx
      by_cases hfull : c.length + 1 > maxC
      · rw [if_pos hfull] at hx; exact Or.inl hx
      · rw [if_neg hfull] at hx
        rcases List.mem_append.mp hx with h | h
        · exact Or.inl h
        · exact Or.inr ⟨rfl, by simpa using h⟩
    · rw [if_neg hop] at hx
      rcases List.mem_or_eq_of_mem_set hx with h | h
      · exact Or.inl h
      · exact Or.inr ⟨rfl, h⟩

theorem applyPatches_whitelist_invariant {maxC : Nat} {c : List RawComponent}
    {ps : List RawPatch} (hc : ∀ x ∈ c, (componentRegistry x.type).isSome) :
    ∀ x ∈ (applyPatches maxC c ps).1, (componentRegistry x.type).isSome := by
  induction ps generalizing c with
  | nil => simpa [applyPatches] using hc
  | cons p rest ih =>
    intro x hx
    simp only [applyPatches] at hx
    refine ih (c := (applyPatch maxC c p).1) ?_ x hx
    intro y hy
    rcases applyPatch_mem hy with h | ⟨hvp, rfl⟩
    · exact hc y h
    · exact registry_isSome_of_validateValue (validateValue_of_validatePatch hvp)

/-- C2: a patch whose `value.type` is outside the registry whitelist is
rejected with `UnknownComponentType` however well-formed its payload is; it
leaves the children untouched, the rest of the batch is still processed, a
whitelisted-only document stays whitelisted-only, and the renderer refuses
the component. -/
theorem unknown_component_type_rejected (maxC : Nat) (c : List RawComponent)
    (ps : List RawPatch) (p : RawPatch) (n : Nat)
    (hop : p.op = "append" ∨ p.op = "set")
    (hpath : p.path = "/children")
    (hwl : componentRegistry p.value.type = none) :
    validatePatch n p = some ErrorKind.UnknownComponentType
    ∧ applyPatch maxC c p = (c, some ErrorKind.UnknownComponentType)
    ∧ applyPatches maxC c (p :: ps) =
        ((applyPatches maxC c ps).1,
          PatchError.mk 0 ErrorKind.UnknownComponentType ::
            (applyPatches maxC c ps).2.map
              (fun e => PatchError.mk (e.patchIndex + 1) e.kind))
    ∧ ((∀ x ∈ c, (componentRegistry x.type).isSome) →
        ∀ x ∈ (applyPatches maxC c (p :: ps)).1, (componentRegistry x.type).isSome)
    ∧ renderComponent p.value = none := by
  have hval : ∀ m : Nat, validatePatch m p = some ErrorKind.UnknownComponentType := by
    intro m
    rcases hop with h | h <;>
      simp [validatePatch, validateValue, h, hpath, hwl]
  have happ : applyPatch maxC c p = (c, some ErrorKind.UnknownComponentType) := by
    unfold applyPatch
    rw [hval c.length]
  refine ⟨hval n, happ, ?_, ?_, ?_⟩
  · simp only [applyPatches, happ]
    simp
  · intro hc
    exact applyPatches_whitelist_invariant hc
  · unfold renderComponent
    rw [hwl]

/-- Witness for C2: a `Script`-typed component with well-formed table data is
rejected with `UnknownComponentType`, the following valid append still lands
and the renderer yields nothing for it. -/
theorem unknown_component_type_rejected_witness :
    validatePatch 0 badTypePatch = some ErrorKind.UnknownComponentType
    ∧ applyPatches 10 [] [badTypePatch, appendPatch sampleTable] =
        ([sampleTable], [PatchError.mk 0 ErrorKind.UnknownComponentType])
    ∧ renderComponent badTypePatch.value = none := by
  have h := unknown_component_type_rejected 10 [] [appendPatch sampleTable]
    badTypePatch 0 (Or.inl rfl) rfl rfl
  exact ⟨h.1, h.2.2.1.trans (by decide), h.2.2.2.2⟩

/-- C1: a batch containing exactly one malformed patch among valid patches
yields exactly one `PatchError`, located at the malformed patch's position,
and the same document as the batch of valid patches alone: the engine never
aborts the batch on a rejected patch. -/
theorem single_malformed_patch_isolated (maxC : Nat) (doc : List RawComponent)
    (b1 b2 : List RawPatch) (m : RawPatch) (k : ErrorKind)
    (hmal : ∀ cs : List RawComponent, applyPatch maxC cs m = (cs, some k))
    (hok : (applyPatches maxC doc (b1 ++ b2)).2 = []) :
    applyPatches maxC doc (b1 ++ m :: b2) =
      ((applyPatches maxC doc (b1 ++ b2)).1, [PatchError.mk b1.length k]) := by
  induction b1 generalizing doc with
  | nil =>
    simp only [List.nil_append] at hok ⊢
    simp only [applyPatches, hmal doc, hok]
    simp
  | cons p rest ih =>
    simp only [List.cons_append] at hok ⊢
    obtain ⟨h1, h2⟩ := applyPatches_cons_no_error hok
    have ihr := ih (applyPatch maxC doc p).1 h2
    simp only [applyPatches, h1, ihr]
    simp

/-- Witness for C1: a batch of two valid appends with a malformed patch
(unknown operation) inserted between them produces both components and
exactly one error at index 1. -/
theorem single_malformed_patch_isolated_witness :
    applyPatches 10 [] [appendPatch sampleTable,
        RawPatch.mk "delete" "/children" sampleChart none,
        appendPatch sampleChart] =
      (([sampleTable, sampleChart] : List RawComponent),
        [PatchError.mk 1 ErrorKind.UnknownOperation]) := by
  have h := single_malformed_patch_isolated 10 []
    [appendPatch sampleTable] [appendPatch sampleChart]
    (RawPatch.mk "delete" "/children" sampleChart none) ErrorKind.UnknownOperation
    (fun cs => rfl) (by decide)
  simpa using h.trans (by decide)

/-- C6: a `set` patch whose index is missing, negative or not strictly below
the child count mutates nothing and yields exactly one `IndexOutOfRange`
error. -/
theorem set_index_out_of_range (maxC : Nat) (doc : UIDocument) (p : RawPatch)
    (rid : String) (now : Nat)
    (hop : p.op = "set") (hpath : p.path = "/children")
    (hval : validateValue p.value = none)
    (hidx : ∀ i : Int, p.index = some i → (i < 0 ∨ (doc.children.length : Int) ≤ i)) :
    (validateAndApplyPatches maxC doc [p] rid now).1.children = doc.children
    ∧ (validateAndApplyPatches maxC doc [p] rid now).2 =
        [PatchError.mk 0 ErrorKind.IndexOutOfRange] := by
  have hv : validatePatch doc.children.length p = some ErrorKind.IndexOutOfRange := by
    simp only [validatePatch, hop, hpath, hval]
    norm_num
    cases hpi : p.index with
    | none => rfl
    | some i =>
      have hni : ¬ (0 ≤ i ∧ i < (doc.children.length : Int)) := by
        rcases hidx i hpi with h | h
        · intro hc
          omega
        · intro hc
          omega
      simp [hni]
  have happ : applyPatch maxC doc.children p =
      (doc.children, some ErrorKind.IndexOutOfRange) := by
    unfold applyPatch
    rw [hv]
  constructor
  · simp only [validateAndApplyPatches, applyPatches, happ]
  · simp only [validateAndApplyPatches, applyPatches, happ]
    simp

/-- Witness for C6: `set` with index 5 against a 2-child document mutates
nothing and reports one `IndexOutOfRange` error. -/
theorem set_index_out_of_range_witness :
    (validateAndApplyPatches 10 (UIDocument.mk [sampleTable, sampleChart] none 0)
        [setPatch 5 sampleTable] "r1" 1).1.children = [sampleTable, sampleChart]
    ∧ (validateAndApplyPatches 10 (UIDocument.mk [sampleTable, sampleChart] none 0)
        [setPatch 5 sampleTable] "r1" 1).2 =
        [PatchError.mk 0 ErrorKind.IndexOutOfRange] := by
  have h := set_index_out_of_range 10 (UIDocument.mk [sampleTable, sampleChart] none 0)
    (setPatch 5 sampleTable) "r1" 1 rfl rfl (by decide)
    (by
      intro i hi
      have h5 : (5 : Int) = i := Option.some.inj hi
      have hlen : (UIDocument.mk [sampleTable, sampleChart] none 0).children.length = 2 := rfl
      rw [hlen]
      omega)
  exact ⟨h.1, h.2⟩

theorem applyPatch_set_length {maxC : Nat} {cs : List RawComponent} {p : RawPatch}
    (hop : p.op = "set") : ((applyPatch maxC cs p).1).length = cs.length := by
  unfold applyPatch
  cases hv : validatePatch cs.length p with
  | some e => rfl
  | none =>
    have hnap : ¬ p.op = "append" := by simp [hop]
    simp [hnap, List.length_set]

theorem applyPatch_full {maxC : Nat} {cs : List RawComponent} {p : RawPatch}
    (hop : p.op = "append") (hv : validatePatch cs.length p = none)
    (hfull : maxC ≤ cs.length) :
    applyPatch maxC cs p = (cs, some ErrorKind.DocumentFull) := by
  unfold applyPatch
  rw [hv]
  simp only [hop, if_true]
  rw [if_pos (by omega)]

theorem applyPatch_length_le {maxC : Nat} {cs : List RawComponent} {p : RawPatch}
    (h : cs.length ≤ maxC) : ((applyPatch maxC cs p).1).length ≤ maxC := by
  unfold applyPatch
  cases hv : validatePatch cs.length p with
  | some e => simpa using h
  | none =>
    by_cases hop : p.op = "append"
    · by_cases hfull : cs.length + 1 > maxC
      · simp only [hop, if_true, if_pos hfull]
        simpa using h
      · simp only [hop, if_true, if_neg hfull]
        simp
        omega
    · simp only [if_neg hop]
      simp [List.length_set]
      exact h

theorem applyPatch_validated_append {maxC : Nat} {cs : List RawComponent} {p : RawPatch}
    (hv : validatePatch cs.length p = none) (hop : p.op = "append")
    (hroom : cs.length + 1 ≤ maxC) :
    applyPatch maxC cs p = (cs ++ [p.value], none) := by
  unfold applyPatch
  rw [hv, if_pos hop, if_neg (by omega)]

theorem applyPatch_validated_set {maxC : Nat} {cs : List RawComponent} {p : RawPatch}
    (hv : validatePatch cs.length p = none) (hop : ¬ p.op = "append") :
    applyPatch maxC cs p = (cs.set (p.index.getD 0).toNat p.value, none) := by
  unfold applyPatch
  rw [hv, if_neg hop]

theorem applyPatch_rejected_out {maxC : Nat} {cs : List RawComponent} {p : RawPatch}
    {e : ErrorKind} (hv : validatePatch cs.length p = some e) :
    applyPatch maxC cs p = (cs, some e) := by
  unfold applyPatch
  rw [hv]

theorem applyPatch_accepted_length {maxC : Nat} {cs : List RawComponent} {p : RawPatch}
    (h : (applyPatch maxC cs p).2 = none) :
    ((applyPatch maxC cs p).1).length
      = cs.length + (if p.op = "append" then 1 else 0) := by
  cases hv : validatePatch cs.length p with
  | some e =>
    rw [applyPatch_rejected_out hv] at h
    simp at h
  | none =>
    by_cases hop : p.op = "append"
    · by_cases hroom : cs.length + 1 ≤ maxC
      · rw [applyPatch_validated_append hv hop hroom]
        simp [hop]
      · rw [applyPatch_full hop hv (by omega)] at h
        simp at h
    · rw [applyPatch_validated_set hv hop]
      simp [hop, List.length_set]

theorem isAcceptedAppendAt_cons_succ (p : RawPatch) (ps : List RawPatch)
    (e0 : List PatchError) (h0 : ∀ x ∈ e0, x.patchIndex = 0)
    (errs : List PatchError) (j : Nat) :
    isAcceptedAppendAt (p :: ps)
        (e0 ++ errs.map (fun e => PatchError.mk (e.patchIndex + 1) e.kind)) (j + 1)
      = isAcceptedAppendAt ps errs j := by
  unfold isAcceptedAppendAt
  congr 1
  · simp
  · rw [List.all_append]
    have he0 : e0.all (fun e => decide (e.patchIndex ≠ j + 1)) = true := by
      rw [List.all_eq_true]
      intro x hx
      simp [h0 x hx]
    rw [he0, Bool.true_and, List.all_map]
    congr 1
    funext x
    exact decide_eq_decide.mpr
      (by show x.patchIndex + 1 ≠ j + 1 ↔ x.patchIndex ≠ j; omega)

theorem countAcceptedAppends_cons (p : RawPatch) (ps : List RawPatch)
    (e0 : List PatchError) (h0 : ∀ x ∈ e0, x.patchIndex = 0)
    (errs : List PatchError) :
    countAcceptedAppends (p :: ps)
        (e0 ++ errs.map (fun e => PatchError.mk (e.patchIndex + 1) e.kind))
      = (if p.op = "append" ∧ e0 = [] then 1 else 0)
          + countAcceptedAppends ps errs := by
  unfold countAcceptedAppends
  rw [List.length_cons, List.range_succ_eq_map, List.countP_cons, List.countP_map]
  have htail :
      (List.range ps.length).countP
          ((fun j => isAcceptedAppendAt (p :: ps)
            (e0 ++ errs.map (fun e => PatchError.mk (e.patchIndex + 1) e.kind)) j)
            ∘ Nat.succ)
        = (List.range ps.length).countP (fun j => isAcceptedAppendAt ps errs j) := by
    apply List.countP_congr
    intro j _
    show isAcceptedAppendAt (p :: ps) _ (j + 1) = true ↔ _
    rw [isAcceptedAppendAt_cons_succ p ps e0 h0 errs j]
  rw [htail]
  have hhead : isAcceptedAppendAt (p :: ps)
      (e0 ++ errs.map (fun e => PatchError.mk (e.patchIndex + 1) e.kind)) 0
        = (decide (p.op = "append") && e0.isEmpty) := by
    unfold isAcceptedAppendAt
    congr 1
    · simp
    · rw [List.all_append, List.all_map]
      have hshift : errs.all
          ((fun e => decide (e.patchIndex ≠ 0)) ∘
            (fun e => PatchError.mk (e.patchIndex + 1) e.kind)) = true := by
        rw [List.all_eq_true]
        intro x _
        simp
      rw [hshift, Bool.and_true]
      cases e0 with
      | nil => simp
      | cons x xs =>
        have hx0 : x.patchIndex = 0 := h0 x (by simp)
        simp [hx0]
  rw [hhead]
  by_cases hop : p.op = "append"
  · cases e0 with
    | nil =>
      simp [hop]
      omega
    | cons x xs => simp [hop]
  · simp [hop]

theorem applyPatches_length (maxC : Nat) (c : List RawComponent) (ps : List RawPatch) :
    (applyPatches maxC c ps).1.length
      = c.length + countAcceptedAppends ps (applyPatches maxC c ps).2 := by
  induction ps generalizing c with
  | nil => simp [applyPatches, countAcceptedAppends]
  | cons p rest ih =>
    simp only [applyPatches]
    cases he : (applyPatch maxC c p).2 with
    | some k =>
      have hc1 : (applyPatch maxC c p).1 = c := applyPatch_rejected_eq he
      simp only [he, hc1]
      rw [show ([PatchError.mk 0 k] : List PatchError) ++
            (applyPatches maxC c rest).2.map
              (fun e => PatchError.mk (e.patchIndex + 1) e.kind)
          = [PatchError.mk 0 k] ++
            (applyPatches maxC c rest).2.map
              (fun e => PatchError.mk (e.patchIndex + 1) e.kind) from rfl]
      rw [countAcceptedAppends_cons p rest [PatchError.mk 0 k] (by simp)
        (applyPatches maxC c rest).2]
      simp only [List.cons_ne_self, and_false, if_false]
      rw [ih c]
      omega
    | none =>
      simp only [he, List.nil_append]
      have h0 : ([] : List PatchError) ++
          (applyPatches maxC (applyPatch maxC c p).1 rest).2.map
            (fun e => PatchError.mk (e.patchIndex + 1) e.kind)
          = (applyPatches maxC (applyPatch maxC c p).1 rest).2.map
            (fun e => PatchError.mk (e.patchIndex + 1) e.kind) := rfl
      rw [← h0, countAcceptedAppends_cons p rest [] (by simp)
        (applyPatches maxC (applyPatch maxC c p).1 rest).2]
      have hlen := applyPatch_accepted_length he
      rw [ih (applyPatch maxC c p).1, hlen]
      by_cases hop : p.op = "append"
      · simp [hop]
        omega
      · simp [hop]

theorem applyPatches_length_le (maxC : Nat) (c : List RawComponent)
    (ps : List RawPatch) (hc : c.length ≤ maxC) :
    (applyPatches maxC c ps).1.length ≤ maxC := by
  induction ps generalizing c with
  | nil => simpa [applyPatches] using hc
  | cons p rest ih =>
    simp only [applyPatches]
    exact ih (applyPatch maxC c p).1 (applyPatch_length_le hc)

/-- C7: for any batch, the resulting children length is the initial length
plus the number of accepted appends, `set` never changes the length, the
length never exceeds the configured maximum, and an append against a full
document is rejected with `DocumentFull`. -/
theorem children_length_law (maxC : Nat) (c : List RawComponent)
    (ps : List RawPatch) (hc : c.length ≤ maxC) :
    (applyPatches maxC c ps).1.length
        = c.length + countAcceptedAppends ps (applyPatches maxC c ps).2
    ∧ (applyPatches maxC c ps).1.length ≤ maxC
    ∧ (∀ p : RawPatch, p.op = "set" → ∀ cs : List RawComponent,
        ((applyPatch maxC cs p).1).length = cs.length)
    ∧ (∀ (cs : List RawComponent) (p : RawPatch), p.op = "append" →
        validatePatch cs.length p = none → maxC ≤ cs.length →
        applyPatch maxC cs p = (cs, some ErrorKind.DocumentFull)) := by
  refine ⟨applyPatches_length maxC c ps, applyPatches_length_le maxC c ps hc, ?_, ?_⟩
  · intro p hop cs
    exact applyPatch_set_length hop
  · intro cs p hop hv hfull
    exact applyPatch_full hop hv hfull

/-- Witness for C7: against a 1-child document with ceiling 2, a batch of an
accepted append, an accepted in-place `set` and an over-full append ends with
2 children (= 1 + 1 accepted append), within the ceiling, and one
`DocumentFull` error. -/
theorem children_length_law_witness :
    (applyPatches 2 [sampleTable]
        [appendPatch sampleChart, setPatch 0 sampleTable,
          appendPatch sampleTable]).1.length
      = 1 + countAcceptedAppends
          [appendPatch sampleChart, setPatch 0 sampleTable, appendPatch sampleTable]
          (applyPatches 2 [sampleTable]
            [appendPatch sampleChart, setPatch 0 sampleTable,
              appendPatch sampleTable]).2
    ∧ (applyPatches 2 [sampleTable]
        [appendPatch sampleChart, setPatch 0 sampleTable,
          appendPatch sampleTable]).1.length ≤ 2
    ∧ (applyPatches 2 [sampleTable]
        [appendPatch sampleChart, setPatch 0 sampleTable,
          appendPatch sampleTable]).2 = [PatchError.mk 2 ErrorKind.DocumentFull] := by
  have h := children_length_law 2 [sampleTable]
    [appendPatch sampleChart, setPatch 0 sampleTable, appendPatch sampleTable]
    (by decide)
  exact ⟨h.1, h.2.1, by decide⟩

/-- C8: a `Table` patch with more rows than the 200-row ceiling is rejected
with `PayloadTooLarge` and the children are untouched (never truncated); a
`Table` patch with exactly 200 rows is accepted and appended verbatim. -/
theorem table_row_ceiling (maxC : Nat) (c : List RawComponent)
    (tid : String) (cols : List String) (rows : List (List String)) :
    (rows.length > MAX_TABLE_ROWS →
      validateValue (RawComponent.mk (some tid) "Table" (RawData.table cols rows))
          = some ErrorKind.PayloadTooLarge
      ∧ applyPatches maxC c
          [appendPatch (RawComponent.mk (some tid) "Table" (RawData.table cols rows))]
        = (c, [PatchError.mk 0 ErrorKind.PayloadTooLarge]))
    ∧ (rows.length = MAX_TABLE_ROWS → c.length + 1 ≤ maxC →
      applyPatches maxC c
          [appendPatch (RawComponent.mk (some tid) "Table" (RawData.table cols rows))]
        = (c ++ [RawComponent.mk (some tid) "Table" (RawData.table cols rows)], [])) := by
  constructor
  · intro hbig
    have hval : validateValue (RawComponent.mk (some tid) "Table" (RawData.table cols rows))
        = some ErrorKind.PayloadTooLarge := by
      simp [validateValue, componentRegistry, hbig]
    refine ⟨hval, ?_⟩
    have hv : validatePatch c.length
        (appendPatch (RawComponent.mk (some tid) "Table" (RawData.table cols rows)))
        = some ErrorKind.PayloadTooLarge := by
      simp [validatePatch, appendPatch, hval]
    rw [show (applyPatches maxC c
        [appendPatch (RawComponent.mk (some tid) "Table" (RawData.table cols rows))])
      = ((applyPatches maxC (applyPatch maxC c
            (appendPatch (RawComponent.mk (some tid) "Table" (RawData.table cols rows)))).1 []).1,
          (match (applyPatch maxC c
            (appendPatch (RawComponent.mk (some tid) "Table" (RawData.table cols rows)))).2 with
           | some k => [PatchError.mk 0 k]
           | none => []) ++
            (applyPatches maxC (applyPatch maxC c
              (appendPatch (RawComponent.mk (some tid) "Table" (RawData.table cols rows)))).1 []).2.map
              (fun e => PatchError.mk (e.patchIndex + 1) e.kind)) from rfl]
    rw [applyPatch_rejected_out hv]
    simp [applyPatches]
  · intro hexact hroom
    have hval : validateValue (RawComponent.mk (some tid) "Table" (RawData.table cols rows))
        = none := by
      simp [validateValue, componentRegistry, MAX_TABLE_ROWS, hexact]
    have hv : validatePatch c.length
        (appendPatch (RawComponent.mk (some tid) "Table" (RawData.table cols rows)))
        = none := by
      simp [validatePatch, appendPatch, hval]
    rw [show (applyPatches maxC c
        [appendPatch (RawComponent.mk (some tid) "Table" (RawData.table cols rows))])
      = ((applyPatches maxC (applyPatch maxC c
            (appendPatch (RawComponent.mk (some tid) "Table" (RawData.table cols rows)))).1 []).1,
          (match (applyPatch maxC c
            (appendPatch (RawComponent.mk (some tid) "Table" (RawData.table cols rows)))).2 with
           | some k => [PatchError.mk 0 k]
           | none => []) ++
            (applyPatches maxC (applyPatch maxC c
              (appendPatch (RawComponent.mk (some tid) "Table" (RawData.table cols rows)))).1 []).2.map
              (fun e => PatchError.mk (e.patchIndex + 1) e.kind)) from rfl]
    rw [applyPatch_validated_append hv rfl hroom]
    simp [applyPatches, appendPatch]

/-- Witness for C8: a 201-row table is rejected leaving the document empty;
a 200-row table is appended intact. -/
theorem table_row_ceiling_witness :
    applyPatches 5 []
        [appendPatch (RawComponent.mk (some "t") "Table"
          (RawData.table ["c"] (List.replicate 201 [])))]
      = ([], [PatchError.mk 0 ErrorKind.PayloadTooLarge])
    ∧ applyPatches 5 []
        [appendPatch (RawComponent.mk (some "t") "Table"
          (RawData.table ["c"] (List.replicate 200 [])))]
      = ([RawComponent.mk (some "t") "Table"
            (RawData.table ["c"] (List.replicate 200 []))], []) := by
  refine ⟨((table_row_ceiling 5 [] "t" ["c"] (List.replicate 201 [])).1 ?_).2,
    ?_⟩
  · rw [List.length_replicate]
    decide
  · have h := (table_row_ceiling 5 [] "t" ["c"] (List.replicate 200 [])).2
      (by rw [List.length_replicate]; rfl) (by decide)
    simpa using h

set_option maxRecDepth 10000 in
/-- C3: driven from the open state, the worker's reconnect delays for the
five automatic attempts (base 3000 ms, cap 30000 ms, defaults of the
config fallbacks) are 3000, 6000, 12000, 24000, 30000; the k-th delay is
`min (3000 * 2 ^ (k - 1)) 30000`. -/
theorem backoff_delay_sequence :
    Worker.reconnectDelays Worker.defaultConfig 5 Worker.postOpenState
        = [3000, 6000, 12000, 24000, 30000]
    ∧ ∀ k : Nat, 1 ≤ k → k ≤ 5 →
        (Worker.reconnectDelays Worker.defaultConfig 5 Worker.postOpenState)[k - 1]? =
          some (min (3000 * 2 ^ (k - 1)) 30000) := by
  refine ⟨by decide, ?_⟩
  intro k h1 h5
  interval_cases k <;> decide

/-- Witness for C3: the fifth delay is capped at 30000 ms. -/
theorem backoff_delay_sequence_witness :
    (Worker.reconnectDelays Worker.defaultConfig 5 Worker.postOpenState)[5 - 1]? =
      some (min (3000 * 2 ^ (5 - 1)) 30000) :=
  backoff_delay_sequence.2 5 (by decide) (by decide)

theorem heartbeatTick_nonready (cfg : Worker.Config) (s : Worker.State)
    (hhb : s.heartbeatTimer = true) (rs : Worker.ReadyState)
    (hes : s.eventSource = some rs) (hnr : rs ≠ Worker.ReadyState.opened) :
    Worker.heartbeatTick cfg s =
      ((Worker.handleConnectionError cfg s).1,
        Worker.MainMsg.logMsg "Heartbeat failed - connection lost"
          :: (Worker.handleConnectionError cfg s).2) := by
  unfold Worker.heartbeatTick
  rw [hhb, hes]
  simp only [if_true]
  rw [if_pos hnr]

/-- C4: after `maxReconnectAttempts` (default 5) consecutive connection
failures from a `CONNECT` request, the worker is disconnected with no
reconnect timer scheduled; once the attempt counter has reached the
maximum, neither a further transport error nor a heartbeat miss schedules a
timer; an explicit `CONNECT` (the hook's `reconnect()`) resets the counter
and re-enters the connecting path. -/
theorem reconnect_gives_up_after_max (cfg : Worker.Config) (s : Worker.State)
    (hmax : cfg.maxReconnectAttempts.getD 5 ≤ s.connectionAttempts) :
    (Worker.failuresFrom Worker.defaultConfig 5
        ((Worker.connectRequest true Worker.initialState).1)).reconnectTimer = none
    ∧ (Worker.failuresFrom Worker.defaultConfig 5
        ((Worker.connectRequest true Worker.initialState).1)).isConnected = false
    ∧ (Worker.failuresFrom Worker.defaultConfig 5
        ((Worker.connectRequest true Worker.initialState).1)).connectionAttempts = 5
    ∧ (Worker.handleConnectionError cfg s).1.reconnectTimer = s.reconnectTimer
    ∧ (Worker.heartbeatTick cfg s).1.reconnectTimer = s.reconnectTimer
    ∧ (Worker.connectRequest true s).1.connectionAttempts = 1
    ∧ (Worker.connectRequest true s).1.eventSource = some Worker.ReadyState.connecting
    ∧ (Worker.connectRequest true s).1.reconnectTimer = none := by
  have hnolt : ¬ s.connectionAttempts < cfg.maxReconnectAttempts.getD 5 := by omega
  have herr : (Worker.handleConnectionError cfg s).1.reconnectTimer = s.reconnectTimer := by
    unfold Worker.handleConnectionError
    rw [if_neg hnolt]
  refine ⟨by decide, by decide, by decide, herr, ?_, ?_, ?_, ?_⟩
  · cases hhb : s.heartbeatTimer with
    | false => simp [Worker.heartbeatTick, hhb]
    | true =>
      cases hes : s.eventSource with
      | none => simp [Worker.heartbeatTick, hhb, hes]
      | some rs =>
        by_cases hrs : rs ≠ Worker.ReadyState.opened
        · rw [heartbeatTick_nonready cfg s hhb rs hes hrs]
          exact herr
        · simp [Worker.heartbeatTick, hhb, hes, hrs]
  · simp [Worker.connectRequest, Worker.connect, Worker.cleanup]
  · simp [Worker.connectRequest, Worker.connect, Worker.cleanup]
  · simp [Worker.connectRequest, Worker.connect, Worker.cleanup]

/-- Witness for C4: instantiated at the terminal state itself, whose attempt
counter (5) has reached the default maximum. -/
theorem reconnect_gives_up_after_max_witness :
    (Worker.handleConnectionError Worker.defaultConfig
        (Worker.failuresFrom Worker.defaultConfig 5
          ((Worker.connectRequest true Worker.initialState).1))).1.reconnectTimer
      = (Worker.failuresFrom Worker.defaultConfig 5
          ((Worker.connectRequest true Worker.initialState).1)).reconnectTimer := by
  have h := reconnect_gives_up_after_max Worker.defaultConfig
    (Worker.failuresFrom Worker.defaultConfig 5
      ((Worker.connectRequest true Worker.initialState).1)) (by decide)
  exact h.2.2.2.1

/-- C5 counterexample: in the `useSafeAgentStream` hook a single heartbeat
check that finds the transport non-ready while connected does not trigger
the reconnect path — it tears the connection down, scheduling nothing. -/
theorem heartbeat_miss_disconnects_in_hook :
    Hook.degradedState.isConnected = true
    ∧ Hook.degradedState.heartbeatTimer = true
    ∧ Hook.degradedState.eventSource ≠ some Worker.ReadyState.opened
    ∧ (Hook.heartbeatTick Hook.degradedState).reconnectTimer = none
    ∧ (Hook.heartbeatTick Hook.degradedState).eventSource = none
    ∧ (Hook.heartbeatTick Hook.degradedState).isConnected = false := by
  decide

/-- C5 (amended): in the worker connection manager a heartbeat tick finding
the transport non-ready runs exactly the transport-error path after this
single miss, and schedules the backoff reconnect while attempts remain. -/
theorem heartbeat_miss_triggers_reconnect (cfg : Worker.Config) (s : Worker.State)
    (hhb : s.heartbeatTimer = true) (hconn : s.isConnected = true)
    (rs : Worker.ReadyState) (hes : s.eventSource = some rs)
    (hnr : rs ≠ Worker.ReadyState.opened) :
    (Worker.heartbeatTick cfg s).1 = (Worker.handleConnectionError cfg s).1
    ∧ (Worker.heartbeatTick cfg s).2 =
        Worker.MainMsg.logMsg "Heartbeat failed - connection lost"
          :: (Worker.handleConnectionError cfg s).2
    ∧ (s.connectionAttempts < cfg.maxReconnectAttempts.getD 5 →
        (Worker.heartbeatTick cfg s).1.reconnectTimer =
          some (min ((cfg.reconnectInterval.getD 3000) * 2 ^ s.connectionAttempts) 30000)) := by
  have htick := heartbeatTick_nonready cfg s hhb rs hes hnr
  refine ⟨by rw [htick], by rw [htick], ?_⟩
  intro hlt
  rw [htick]
  unfold Worker.handleConnectionError
  rw [if_pos hlt]

/-- Witness for C5 (amended): a freshly-opened worker connection whose
transport silently closed gets a 3000 ms reconnect scheduled by the very
next heartbeat tick. -/
theorem heartbeat_miss_triggers_reconnect_witness :
    (Worker.heartbeatTick Worker.defaultConfig
        { Worker.postOpenState with
            eventSource := some Worker.ReadyState.closed }).1.reconnectTimer
      = some (min (3000 * 2 ^ 0) 30000) := by
  have h := heartbeat_miss_triggers_reconnect Worker.defaultConfig
    { Worker.postOpenState with eventSource := some Worker.ReadyState.closed }
    (by decide) (by decide) Worker.ReadyState.closed (by decide) (by decide)
  have h3 := h.2.2 (by decide)
  simpa using h3

/-- C9: an empty/whitespace or unparseable frame is logged and dropped: the
worker state (connection flag, attempt counter, transport, timers) is
untouched, nothing is forwarded as patch data, no connection-status change
is emitted, yet the handler does react (log or generic error report). -/
theorem malformed_frame_dropped (parse : String → Option Worker.AgentData)
    (s : Worker.State) (raw : String)
    (h : raw.trim = "" ∨ parse raw = none) :
    (Worker.onMessage parse s raw).1 = s
    ∧ (∀ m ∈ (Worker.onMessage parse s raw).2,
        m.isStatus = false ∧ m.isAgentResponse = false)
    ∧ (Worker.onMessage parse s raw).2 ≠ [] := by
  unfold Worker.onMessage
  by_cases ht : raw.trim = ""
  · rw [if_pos ht]
    refine ⟨rfl, ?_, by simp⟩
    intro m hm
    simp only [List.mem_singleton] at hm
    subst hm
    exact ⟨rfl, rfl⟩
  · rw [if_neg ht]
    have hp : parse raw = none := h.resolve_left ht
    rw [hp]
    refine ⟨rfl, ?_, by simp⟩
    intro m hm
    simp only [List.mem_cons, List.mem_singleton, List.not_mem_nil, or_false] at hm
    rcases hm with rfl | rfl | rfl <;> exact ⟨rfl, rfl⟩

/-- Witness for C9: an empty frame against the initial worker state changes
nothing and still produces a handler reaction. -/
theorem malformed_frame_dropped_witness :
    (Worker.onMessage (fun _ => none) Worker.initialState "nonsense").1
        = Worker.initialState
    ∧ (Worker.onMessage (fun _ => none) Worker.initialState "nonsense").2 ≠ [] := by
  have h := malformed_frame_dropped (fun _ => none) Worker.initialState "nonsense"
    (Or.inr rfl)
  exact ⟨h.1, h.2.2⟩

/-- C10: `sendQuery` while not connected is rejected locally — no network
call, an error report, state untouched; `sendQuery` never modifies the
connection state; and a connected send whose fetch fails (non-2xx or
network failure) issues the call, surfaces an error and leaves the state
untouched. -/
theorem send_query_guard (s : Worker.State) (outcome : Worker.FetchOutcome) :
    (s.isConnected = false →
      (Worker.sendQuery outcome s).2.2 = false
      ∧ Worker.MainMsg.errorMsg "Not connected to agent"
          ∈ (Worker.sendQuery outcome s).2.1)
    ∧ (Worker.sendQuery outcome s).1 = s
    ∧ (s.isConnected = true → outcome ≠ Worker.FetchOutcome.ok →
        (Worker.sendQuery outcome s).2.2 = true
        ∧ Worker.MainMsg.errorMsg "Failed to send query"
            ∈ (Worker.sendQuery outcome s).2.1) := by
  refine ⟨?_, ?_, ?_⟩
  · intro hc
    simp [Worker.sendQuery, hc]
  · by_cases hc : s.isConnected
    · cases outcome <;> simp [Worker.sendQuery, hc]
    · simp [Worker.sendQuery, hc]
  · intro hc hout
    cases outcome with
    | ok => exact absurd rfl hout
    | httpError code => simp [Worker.sendQuery, hc]
    | networkFailure => simp [Worker.sendQuery, hc]

/-- Witness for C10: a disconnected send makes no network call and leaves
the state alone; a connected send hitting a 500 still makes the call and
leaves the state alone. -/
theorem send_query_guard_witness :
    (Worker.sendQuery Worker.FetchOutcome.networkFailure Worker.initialState).2.2 = false
    ∧ (Worker.sendQuery Worker.FetchOutcome.networkFailure Worker.initialState).1
        = Worker.initialState
    ∧ (Worker.sendQuery (Worker.FetchOutcome.httpError 500) Worker.postOpenState).2.2 = true
    ∧ (Worker.sendQuery (Worker.FetchOutcome.httpError 500) Worker.postOpenState).1
        = Worker.postOpenState := by
  have h1 := send_query_guard Worker.initialState Worker.FetchOutcome.networkFailure
  have h2 := send_query_guard Worker.postOpenState (Worker.FetchOutcome.httpError 500)
  exact ⟨(h1.1 rfl).1, h1.2.1, (h2.2.2 (by decide) (by decide)).1, h2.2.1⟩
